import Mathlib

/-
Verification development for the GeoVision spatial-analysis front end
(src/main.js).  The analysis/response core of the program is embedded
shallowly below: pure JavaScript functions become Lean functions,
coordinates (JS numbers) are modelled as rationals, every call to
Math.random() becomes an explicit parameter (a Bool for the `> 0.5`
coastal gate, a Fin 4 for the uniform pick among four population
buckets), and the append-only chat history array becomes an explicit
list that is threaded through the chat operations.  DOM reads/writes
and network calls are presentation-layer collaborators and are not part
of the embedded core.
-/

namespace GeoVision

/-- Hazard names appearing in identifyHazards (src/main.js). -/
inductive HazardName where
  | Earthquake
  | Typhoon
  | Flooding
  | Tsunami
  | Landslide
deriving DecidableEq, Repr

/-- Hazard severity levels appearing in identifyHazards (src/main.js). -/
inductive HazardLevel where
  | low
  | moderate
  | high
deriving DecidableEq, Repr

/-- One entry of the hazards array: { name, level }. -/
structure Hazard where
  name : HazardName
  level : HazardLevel
deriving DecidableEq, Repr

/-- Embedding of Math.abs on the rational model of JS numbers. -/
def jsAbs (x : ℚ) : ℚ :=
  if x < 0 then -x else x

/-- Embedding of identifyHazards(lat, lon) from src/main.js.  The single
Math.random() > 0.5 coastal gate is the explicit Bool parameter
isCoastal; everything else is a direct translation of the five pushes. -/
def identifyHazards (lat lon : ℚ) (isCoastal : Bool) : List Hazard :=
  [ if jsAbs (lat - 14.5995) < 2 ∨ jsAbs (lat - 10.3157) < 2 then
      { name := HazardName.Earthquake, level := HazardLevel.high }
    else
      { name := HazardName.Earthquake, level := HazardLevel.moderate },
    if lon > 121 ∧ lon < 126 then
      { name := HazardName.Typhoon, level := HazardLevel.high }
    else
      { name := HazardName.Typhoon, level := HazardLevel.moderate },
    if lat < 15 ∧ lat > 10 then
      { name := HazardName.Flooding, level := HazardLevel.moderate }
    else
      { name := HazardName.Flooding, level := HazardLevel.low } ]
  ++ (if isCoastal then [{ name := HazardName.Tsunami, level := HazardLevel.moderate }] else [])
  ++ (if lat > 16 ∨ (lat > 6 ∧ lat < 10) then
        [{ name := HazardName.Landslide, level := HazardLevel.moderate }]
      else [])

/-- Embedding of the scoring part of calculateResilience (src/main.js):
count high and moderate hazards in a hazard list, subtract 20 resp. 10
per hazard from 100 and clamp with Math.max(30, Math.min(100, score)). -/
def scoreHazards (hazards : List Hazard) : ℤ :=
  let highRiskCount := (hazards.filter (fun h => h.level == HazardLevel.high)).length
  let moderateRiskCount := (hazards.filter (fun h => h.level == HazardLevel.moderate)).length
  max 30 (min 100 ((100 : ℤ) - highRiskCount * 20 - moderateRiskCount * 10))

/-- Embedding of calculateResilience(lat, lon) from src/main.js.  It
re-runs identifyHazards (a fresh Math.random() draw, the explicit
isCoastal parameter) and scores the resulting list. -/
def calculateResilience (lat lon : ℚ) (isCoastal : Bool) : ℤ :=
  scoreHazards (identifyHazards lat lon isCoastal)

/-- Helper for substring search: does the candidate list start with the
pattern list?  (Char-list level, structurally recursive.) -/
def leadMatch : List Char → List Char → Bool
  | [], _ => true
  | _ :: _, [] => false
  | p :: ps, c :: cs => p == c && leadMatch ps cs

/-- Does the pattern occur as a contiguous run somewhere in the list? -/
def hasSub : List Char → List Char → Bool
  | [], pat => pat.isEmpty
  | c :: rest, pat => leadMatch pat (c :: rest) || hasSub rest pat

/-- Embedding of JavaScript String.prototype.includes. -/
def jsIncludes (s pat : String) : Bool :=
  hasSub s.data pat.data

/-- Embedding of JavaScript String.prototype.toLowerCase (character-wise
lowering; the source only matches ASCII keywords). -/
def lowerStr (s : String) : String :=
  String.mk (s.data.map Char.toLower)

/-- Embedding of JavaScript String.prototype.trim: drop leading and
trailing whitespace. -/
def jsTrim (s : String) : String :=
  String.mk (((s.data.dropWhile Char.isWhitespace).reverse.dropWhile Char.isWhitespace).reverse)

/-- Embedding of the JS idiom `s || fallback` on a possibly-null,
possibly-empty string (null and the empty string are falsy). -/
def jsStrOr (s : Option String) (fallback : String) : String :=
  match s with
  | some v => if v = "" then fallback else v
  | none => fallback

/-- The four random population buckets of estimatePopulation. -/
def populationEstimates : List String :=
  ["50K-100K", "100K-250K", "250K-500K", "20K-50K"]

/-- Embedding of estimatePopulation(placeName) from src/main.js.  The JS
argument may be null or empty (both falsy, giving the Unknown branch),
hence the Option; the uniform pick Math.floor(Math.random() * length)
over the four fallback buckets is the explicit draw parameter. -/
def estimatePopulation (placeName : Option String) (draw : Fin 4) : String :=
  match placeName with
  | none => "Unknown"
  | some pn =>
    if pn = "" then "Unknown"
    else
      let lower := lowerStr pn
      if jsIncludes lower ("metro manila") || jsIncludes lower ("manila") then "~13.5M"
      else if jsIncludes lower ("quezon city") then "~2.9M"
      else if jsIncludes lower ("cebu") then "~950K"
      else if jsIncludes lower ("davao") then "~1.6M"
      else if jsIncludes lower ("camarines") then "~580K"
      else populationEstimates.get (Fin.cast (by rfl) draw)

/-- The currentLocation global of src/main.js: set by loadLocationInfo,
possibly before a place name has been resolved (hence Option on it). -/
structure CurrentLocation where
  lat : ℚ
  lon : ℚ
  placeName : Option String

/-- Rendering of a hazard name into the template string. -/
def hazardNameStr : HazardName → String
  | HazardName.Earthquake => "Earthquake"
  | HazardName.Typhoon => "Typhoon"
  | HazardName.Flooding => "Flooding"
  | HazardName.Tsunami => "Tsunami"
  | HazardName.Landslide => "Landslide"

/-- Rendering of a hazard level into the template string. -/
def hazardLevelStr : HazardLevel → String
  | HazardLevel.low => "low"
  | HazardLevel.moderate => "moderate"
  | HazardLevel.high => "high"

/-- Population-branch reply of generateAIResponse (src/main.js). -/
def populationReply (loc : Option CurrentLocation) (draw : Fin 4) : String :=
  match loc with
  | some c =>
      "Based on available data, the estimated population in "
        ++ jsStrOr c.placeName ("this area") ++ " is approximately "
        ++ estimatePopulation c.placeName draw
        ++ ". This is an estimate based on regional census data and recent demographic trends."
  | none => "To provide population data, please click on a specific location on the map first."

/-- Hazard-branch reply of generateAIResponse (src/main.js); it runs
identifyHazards afresh, so it takes its own coastal draw. -/
def hazardReply (loc : Option CurrentLocation) (isCoastal : Bool) : String :=
  match loc with
  | some c =>
      let hazards := identifyHazards c.lat c.lon isCoastal
      let hazardList := String.intercalate (", ")
        (hazards.map (fun h => hazardNameStr h.name ++ " (" ++ hazardLevelStr h.level ++ " risk)"))
      "The primary hazards identified for this location include: " ++ hazardList
        ++ ". I recommend implementing structural reinforcements, early warning systems, and community preparedness programs. Would you like detailed architectural solutions for specific hazards?"
  | none => "Please select a location on the map to analyze hazard risks."

/-- Solution-branch reply of generateAIResponse (src/main.js). -/
def solutionReply (loc : Option CurrentLocation) : String :=
  match loc with
  | some c =>
      "For " ++ jsStrOr c.placeName ("this location")
        ++ ", I recommend the following solutions:\n\n1. **Flood Mitigation**: Install improved drainage systems with 2.5m deep channels, capacity for 150mm/hour rainfall\n\n2. **Earthquake Resilience**: Retrofit critical buildings with base isolation systems, estimated cost ₱2.5M per structure\n\n3. **Evacuation Infrastructure**: Establish 3 evacuation centers within 500m radius, capacity 500 people each\n\n4. **Early Warning System**: Deploy IoT sensors for real-time monitoring, estimated setup ₱850K\n\nWould you like 3D architectural mockups for any of these solutions?"
  | none => "Please select a specific location to receive tailored solutions."

/-- Weather-branch reply of generateAIResponse (src/main.js). -/
def weatherReply : String :=
  "Current weather conditions:\n- Temperature: 28°C\n- Humidity: 75%\n- Wind: 15 km/h NE\n- Conditions: Partly cloudy\n\n7-Day Forecast: Mixed conditions with possible rain showers on Feb 8-9. No tropical cyclones currently threatening the area.\n\nWould you like detailed impact analysis on local infrastructure?"

/-- Volcano-branch reply of generateAIResponse (src/main.js). -/
def volcanoReply : String :=
  "Active Volcano Status:\n\n**Mayon Volcano**: Alert Level 2 (Increasing unrest)\n- Distance from you: ~245 km\n- Last activity: Minor ash emission Feb 4, 2026\n- Danger zone: 6km radius\n\n**Taal Volcano**: Alert Level 1 (Abnormal)\n- Distance from you: ~180 km\n- Last activity: Phreatic eruption Jan 2026\n- Danger zone: Crater area\n\nRecommendations: Monitor PHIVOLCS bulletins, prepare evacuation plans for communities within 10km."

/-- Earthquake-branch reply of generateAIResponse (src/main.js). -/
def earthquakeReply : String :=
  "Recent Seismic Activity:\n\n**Latest Event**: Magnitude 4.2\n- Location: 15km NE of Mindoro\n- Depth: 10km\n- Time: Feb 6, 2026 08:15 AM\n- Intensity: III (Weak)\n\n**Fault Lines Nearby**:\n- West Valley Fault: 35km\n- East Valley Fault: 42km\n- Marikina Fault: 28km\n\nRisk Assessment: Moderate seismic risk. Buildings should comply with NSCP 2015 earthquake-resistant standards."

/-- Default fallback reply of generateAIResponse (src/main.js). -/
def defaultReply : String :=
  "I'm AI VISION, your intelligent spatial analysis assistant. I can help you with:\n\n• Population and demographic data\n• Hazard and risk assessments\n• Infrastructure solutions and recommendations\n• Weather forecasts and disaster monitoring\n• Volcanic and seismic activity tracking\n• 3D architectural planning\n\nClick anywhere on the map or ask me a specific question about any location in the Philippines!"

/-- Population trigger keywords of generateAIResponse, tested on the
lower-cased message. -/
def hasPopulationKeyword (m : String) : Bool :=
  jsIncludes m ("population") || jsIncludes m ("people") || jsIncludes m ("ppl")

/-- Hazard trigger keywords of generateAIResponse. -/
def hasHazardKeyword (m : String) : Bool :=
  jsIncludes m ("hazard") || jsIncludes m ("risk") || jsIncludes m ("danger") || jsIncludes m ("safe")

/-- Solution trigger keywords of generateAIResponse. -/
def hasSolutionKeyword (m : String) : Bool :=
  jsIncludes m ("solution") || jsIncludes m ("fix") || jsIncludes m ("improve") || jsIncludes m ("help")

/-- Weather trigger keywords of generateAIResponse. -/
def hasWeatherKeyword (m : String) : Bool :=
  jsIncludes m ("weather") || jsIncludes m ("forecast") || jsIncludes m ("rain") || jsIncludes m ("typhoon")

/-- Volcano trigger keywords of generateAIResponse. -/
def hasVolcanoKeyword (m : String) : Bool :=
  jsIncludes m ("volcano") || jsIncludes m ("eruption") || jsIncludes m ("mayon") || jsIncludes m ("taal")

/-- Earthquake trigger keywords of generateAIResponse. -/
def hasEarthquakeKeyword (m : String) : Bool :=
  jsIncludes m ("earthquake") || jsIncludes m ("seismic") || jsIncludes m ("quake")

/-- Embedding of generateAIResponse(userMessage) from src/main.js: a
sequence of early returns, equivalent to this if/else-if chain; the
first matching keyword category wins.  popDraw and hazardDraw are the
Math.random() draws the population resp. hazard branches may consume. -/
def generateAIResponse (userMessage : String) (currentLocation : Option CurrentLocation)
    (popDraw : Fin 4) (hazardDraw : Bool) : String :=
  let lowerMessage := lowerStr userMessage
  if hasPopulationKeyword lowerMessage then populationReply currentLocation popDraw
  else if hasHazardKeyword lowerMessage then hazardReply currentLocation hazardDraw
  else if hasSolutionKeyword lowerMessage then solutionReply currentLocation
  else if hasWeatherKeyword lowerMessage then weatherReply
  else if hasVolcanoKeyword lowerMessage then volcanoReply
  else if hasEarthquakeKeyword lowerMessage then earthquakeReply
  else defaultReply

/-- One record pushed onto the chatMessages array by addChatMessage
(src/main.js): { type, content }, with type the literal string tag
(the call sites pass only the literals given to addChatMessage). -/
structure ChatEntry where
  type : String
  content : String
deriving DecidableEq, Repr

/-- Embedding of addChatMessage(type, content) from src/main.js,
restricted to its effect on the chatMessages store: a push onto the end
of the array.  (The DOM rendering and the isModal container switch are
presentation-layer and do not touch the store.) -/
def addChatMessage (type content : String) (store : List ChatEntry) : List ChatEntry :=
  store ++ [{ type := type, content := content }]

/-- Embedding of sendChatMessage from src/main.js as a transition on the
chatMessages store.  The first component of the result is the new store;
the second records the invocation of the assistant responder: some m
when generateAIResponse was called with message m, none when the
trimmed input was empty and the handler returned early.  The isModal
flag only selects DOM containers and does not affect the store. -/
def sendChatMessage (input : String) (loc : Option CurrentLocation) (popDraw : Fin 4)
    (hazardDraw : Bool) (store : List ChatEntry) : List ChatEntry × Option String :=
  let message := jsTrim input
  if message = "" then (store, none)
  else
    let afterUser := addChatMessage ("user") message store
    let aiResponse := generateAIResponse message loc popDraw hazardDraw
    (addChatMessage ("ai") aiResponse afterUser, some message)

/-- The fixed delayed placeholder text that handleImageUpload
(src/main.js) posts as the image-analysis result. -/
def imageAnalysisText : String :=
  "Based on the image analysis, this appears to be an urban area with mixed residential and commercial development. Structural analysis indicates standard concrete construction. I've identified potential drainage issues and recommend installing retention basins. Coordinates estimated at approximately 14.5995°N, 120.9842°E (Metro Manila area). Would you like detailed infrastructure recommendations?"

/-- Embedding of handleImageUpload (src/main.js) restricted to its
effect on the chatMessages store: only the delayed analysis placeholder
goes through addChatMessage (the uploaded-image bubble is written to the
DOM directly and never enters the store). -/
def handleImageUpload (store : List ChatEntry) : List ChatEntry :=
  addChatMessage ("ai") imageAnalysisText store

/-- The role enumeration of the spec data model for chat messages. -/
inductive Role where
  | user
  | assistant
deriving DecidableEq, Repr

/-- Modelled from the spec: interpretation of the type tag stored by the
code as the role enumeration {user, assistant} of the spec data model.
The source represents the assistant role with the literal tag "ai". -/
def roleOfType (t : String) : Option Role :=
  if t = "user" then some Role.user
  else if t = "ai" then some Role.assistant
  else none

/-- Does every entry of a chat store carry a type tag that denotes one
of the two spec roles? -/
def storeRolesValid (store : List ChatEntry) : Bool :=
  store.all (fun m => (roleOfType m.type).isSome)

/-- The locationData record built by analyzeLocation (src/main.js).
The coordinates field holds the raw pair; its toFixed(4) degree-string
formatting, and the HTML the function renders around the record, are
presentation-layer. -/
structure LocationData where
  name : String
  coordinates : ℚ × ℚ
  population : String
  hazards : List Hazard
  infrastructure : String
  resilience : ℤ

/-- Embedding of analyzeLocation(lat, lon, placeName) from src/main.js.
The hazards field and the resilience field each trigger their own
Math.random() coastal draw (identifyHazards is called directly for the
former and again inside calculateResilience for the latter), hence the
two independent Bool parameters hazardDraw and resilienceDraw. -/
def analyzeLocation (lat lon : ℚ) (placeName : String) (popDraw : Fin 4)
    (hazardDraw resilienceDraw : Bool) : LocationData :=
  { name := placeName
    coordinates := (lat, lon)
    population := estimatePopulation (some placeName) popDraw
    hazards := identifyHazards lat lon hazardDraw
    infrastructure := "Moderate"
    resilience := calculateResilience lat lon resilienceDraw }

end GeoVision

namespace GeoVision

/-- Spec-side scoring formula (spec §4.2, stated over a hazard list):
start at 100, subtract 20 per high-level hazard and 10 per
moderate-level hazard, clamp the result to [30,100]. -/
def resilienceScorerSpec (hazards : List Hazard) : ℤ :=
  max 30 (min 100
    ((100 : ℤ) - 20 * (hazards.countP (fun h => h.level == HazardLevel.high) : ℤ)
      - 10 * (hazards.countP (fun h => h.level == HazardLevel.moderate) : ℤ)))

/-- Shape of every identifyHazards result: three fixed leading entries
followed by the two conditional ones. -/
theorem hazard_list_shape (lat lon : ℚ) (d : Bool) :
    ∃ e t f : HazardLevel,
      identifyHazards lat lon d =
        [{ name := HazardName.Earthquake, level := e },
         { name := HazardName.Typhoon, level := t },
         { name := HazardName.Flooding, level := f }]
        ++ (if d then [{ name := HazardName.Tsunami, level := HazardLevel.moderate }] else [])
        ++ (if lat > 16 ∨ (lat > 6 ∧ lat < 10) then
              [{ name := HazardName.Landslide, level := HazardLevel.moderate }]
            else []) := by
  unfold identifyHazards
  split <;> split <;> split <;> exact ⟨_, _, _, rfl⟩

/-- Adding the Tsunami entry always lowers the computed score by exactly
10: the clamp bounds are never reached (the worst case without Tsunami
is 100 - 20 - 20 - 10 - 10 = 40 > 30). -/
theorem scoreHazards_coastal (lat lon : ℚ) :
    scoreHazards (identifyHazards lat lon true)
      = scoreHazards (identifyHazards lat lon false) - 10 := by
  by_cases h1 : jsAbs (lat - 14.5995) < 2 ∨ jsAbs (lat - 10.3157) < 2 <;>
  by_cases h2 : lon > 121 ∧ lon < 126 <;>
  by_cases h3 : lat < 15 ∧ lat > 10 <;>
  by_cases h4 : lat > 16 ∨ (lat > 6 ∧ lat < 10) <;>
  all_goals (simp [identifyHazards, h1, h2, h3, h4]; decide)

/-- C1: for every hazard list the computed resilience equals the spec
formula (100 minus 20 per high and 10 per moderate hazard, clamped to
[30,100]), and consequently the resilience score returned for any
coordinate and any coastal draw lies in [30,100]. -/
theorem resilience_formula_and_range :
    (∀ hazards : List Hazard, scoreHazards hazards = resilienceScorerSpec hazards)
    ∧ ∀ (lat lon : ℚ) (isCoastal : Bool),
        30 ≤ calculateResilience lat lon isCoastal
        ∧ calculateResilience lat lon isCoastal ≤ 100 := by
  constructor
  · intro hazards
    simp only [scoreHazards, resilienceScorerSpec, List.countP_eq_length_filter]
    ring_nf
  · intro lat lon isCoastal
    refine ⟨le_max_left _ _, ?_⟩
    exact max_le (by norm_num) (min_le_left _ _)

/-- C2, counterexample: at lat 14.5995, lon 120.9842 the Typhoon hazard
is moderate, not high (120.9842 is not greater than 121), and the
resilience score is 60 without the Tsunami draw and 50 with it — so the
claimed 100-20-20-10 = 50 pre-Tsunami score and the claimed 20-50 final
range are both wrong. -/
theorem hazards_manila_typhoon_not_high :
    identifyHazards 14.5995 120.9842 false =
      [{ name := HazardName.Earthquake, level := HazardLevel.high },
       { name := HazardName.Typhoon, level := HazardLevel.moderate },
       { name := HazardName.Flooding, level := HazardLevel.moderate }]
    ∧ calculateResilience 14.5995 120.9842 false = 60
    ∧ calculateResilience 14.5995 120.9842 true = 50 := by
  refine ⟨?_, ?_, ?_⟩ <;>
    norm_num [identifyHazards, jsAbs, calculateResilience, scoreHazards] <;> decide

/-- C2, amended: for lat 14.5995, lon 120.9842 the classifier gives
Earthquake high, Typhoon moderate and Flooding moderate, there is no
Landslide entry, so the score before the Tsunami component is
100 - 20 - 10 - 10 = 60 and the final resilience score is 50 when the
Tsunami gate fires and 60 when it does not. -/
theorem hazards_and_resilience_at_manila :
    ∀ d : Bool,
      identifyHazards 14.5995 120.9842 d =
        [{ name := HazardName.Earthquake, level := HazardLevel.high },
         { name := HazardName.Typhoon, level := HazardLevel.moderate },
         { name := HazardName.Flooding, level := HazardLevel.moderate }]
        ++ (if d then [{ name := HazardName.Tsunami, level := HazardLevel.moderate }] else [])
      ∧ calculateResilience 14.5995 120.9842 d = if d then 50 else 60 := by
  intro d
  cases d <;> refine ⟨?_, ?_⟩ <;>
    norm_num [identifyHazards, jsAbs, calculateResilience, scoreHazards] <;> decide

/-- C3: every classifier output starts with Earthquake, Typhoon and
Flooding entries in that order, any Tsunami entry carries level
moderate (it is the only possible fourth entry and appears exactly when
the coastal draw fires), and a Landslide entry — always of level
moderate — is present exactly when lat > 16 or 6 < lat < 10. -/
theorem hazard_list_structure :
    ∀ (lat lon : ℚ) (d : Bool),
      (∃ e t f : HazardLevel,
        identifyHazards lat lon d =
          [{ name := HazardName.Earthquake, level := e },
           { name := HazardName.Typhoon, level := t },
           { name := HazardName.Flooding, level := f }]
          ++ (if d then [{ name := HazardName.Tsunami, level := HazardLevel.moderate }] else [])
          ++ (if lat > 16 ∨ (lat > 6 ∧ lat < 10) then
                [{ name := HazardName.Landslide, level := HazardLevel.moderate }]
              else []))
      ∧ ((∃ h ∈ identifyHazards lat lon d, h.name = HazardName.Landslide)
          ↔ (lat > 16 ∨ (lat > 6 ∧ lat < 10))) := by
  intro lat lon d
  obtain ⟨e, t, f, heq⟩ := hazard_list_shape lat lon d
  refine ⟨⟨e, t, f, heq⟩, ?_⟩
  rw [heq]
  by_cases hl : lat > 16 ∨ (lat > 6 ∧ lat < 10) <;> cases d <;> simp [hl]

/-- C4: any place name whose lower-casing contains the substring
"metro manila" makes estimatePopulation return the fixed bucket
"~13.5M" for every random draw — the branch is deterministic. -/
theorem metro_manila_population_fixed :
    ∀ (s : String) (draw : Fin 4),
      jsIncludes (lowerStr s) ("metro manila") = true →
      estimatePopulation (some s) draw = "~13.5M" := by
  intro s draw h
  by_cases hs : s = ""
  · subst hs
    exact absurd h (by decide)
  · simp [estimatePopulation, hs, h]

/-- Witness for C4 at the concrete place name "Metro Manila". -/
theorem metro_manila_population_fixed_witness :
    jsIncludes (lowerStr ("Metro Manila")) ("metro manila") = true
    ∧ estimatePopulation (some ("Metro Manila")) 2 = "~13.5M" :=
  ⟨by decide, metro_manila_population_fixed ("Metro Manila") 2 (by decide)⟩

/-- C9: the deterministic "~13.5M" branch fires on any place name whose
lower-casing merely contains "manila" — the check is
`includes(metro manila) || includes(manila)`, so the plain substring
"manila" suffices, regardless of the random draw. -/
theorem manila_substring_population :
    ∀ (s : String) (draw : Fin 4),
      jsIncludes (lowerStr s) ("manila") = true →
      estimatePopulation (some s) draw = "~13.5M" := by
  intro s draw h
  by_cases hs : s = ""
  · subst hs
    exact absurd h (by decide)
  · simp [estimatePopulation, hs, h]

/-- Witness for C9 at the concrete place name "Manila Bay". -/
theorem manila_substring_population_witness :
    jsIncludes (lowerStr ("Manila Bay")) ("manila") = true
    ∧ estimatePopulation (some ("Manila Bay")) 0 = "~13.5M" :=
  ⟨by decide, manila_substring_population ("Manila Bay") 0 (by decide)⟩

/-- C5: a message whose lower-casing triggers both the population and
the hazard keyword sets resolves to the population-branch reply,
because the population category is tested first in the fixed priority
chain of generateAIResponse. -/
theorem population_branch_priority :
    ∀ (msg : String) (loc : Option CurrentLocation) (popDraw : Fin 4) (hazardDraw : Bool),
      hasPopulationKeyword (lowerStr msg) = true →
      hasHazardKeyword (lowerStr msg) = true →
      generateAIResponse msg loc popDraw hazardDraw = populationReply loc popDraw := by
  intro msg loc popDraw hazardDraw hp _hh
  simp [generateAIResponse, hp]

/-- Witness for C5 at the concrete message "population risk". -/
theorem population_branch_priority_witness :
    hasPopulationKeyword (lowerStr ("population risk")) = true
    ∧ hasHazardKeyword (lowerStr ("population risk")) = true
    ∧ generateAIResponse ("population risk") none 0 false = populationReply none 0 :=
  ⟨by decide, by decide,
    population_branch_priority ("population risk") none 0 false (by decide) (by decide)⟩

/-- C6: when the trimmed chat input is empty, sendChatMessage leaves the
conversation store unchanged and records no assistant-responder
invocation (the handler returns before addChatMessage and
generateAIResponse are reached). -/
theorem blank_chat_input_ignored :
    ∀ (input : String) (loc : Option CurrentLocation) (popDraw : Fin 4) (hazardDraw : Bool)
      (store : List ChatEntry),
      jsTrim input = "" →
      sendChatMessage input loc popDraw hazardDraw store = (store, none) := by
  intro input loc popDraw hazardDraw store h
  simp [sendChatMessage, h]

/-- Witness for C6 at the concrete whitespace-only input. -/
theorem blank_chat_input_ignored_witness :
    jsTrim ("  \t ") = ""
    ∧ sendChatMessage ("  \t ") none 0 false [] = ([], none) :=
  ⟨by decide, blank_chat_input_ignored ("  \t ") none 0 false [] (by decide)⟩

/-- C7: appending messages A then B to the conversation store yields the
old log followed by [A, B] in that order, and an append never disturbs
the previously stored prefix. -/
theorem chat_log_append_order :
    ∀ (store : List ChatEntry) (a b c : ChatEntry),
      addChatMessage b.type b.content (addChatMessage a.type a.content store) = store ++ [a, b]
      ∧ (addChatMessage c.type c.content store).take store.length = store := by
  intro store a b c
  refine ⟨?_, ?_⟩
  · simp [addChatMessage]
  · simp [addChatMessage, List.take_left]

/-- C8: every entry a sendChatMessage transition or an image-upload
analysis adds to the conversation store carries a type tag denoting one
of the two spec roles (user or assistant, the latter stored as the
literal "ai"); the content field is a string by construction. -/
theorem chat_roles_valid :
    ∀ (input : String) (loc : Option CurrentLocation) (popDraw : Fin 4) (hazardDraw : Bool)
      (store : List ChatEntry),
      storeRolesValid store = true →
      storeRolesValid (sendChatMessage input loc popDraw hazardDraw store).1 = true
      ∧ storeRolesValid (handleImageUpload store) = true := by
  intro input loc popDraw hazardDraw store h
  refine ⟨?_, ?_⟩
  · unfold sendChatMessage
    by_cases he : jsTrim input = ""
    · simp [he, h]
    · simp [he, storeRolesValid, addChatMessage, roleOfType] at h ⊢
      exact h
  · simp [handleImageUpload, storeRolesValid, addChatMessage, roleOfType] at h ⊢
    exact h

/-- Witness for C8 on the empty store and the concrete input "hi". -/
theorem chat_roles_valid_witness :
    storeRolesValid [] = true
    ∧ storeRolesValid (sendChatMessage ("hi") none 0 false []).1 = true :=
  ⟨by decide, (chat_roles_valid ("hi") none 0 false [] (by decide)).1⟩

/-- C10: in a single analyzeLocation report the hazards field and the
resilience field come from two independent identifyHazards invocations
(calculateResilience re-runs hazard identification instead of scoring
the reported list), so at lat 14.5995, lon 120.9842 with differing
draws the reported resilience is not the score of the reported hazard
list; in general the two disagree exactly when the two coastal draws
differ. -/
theorem report_hazards_resilience_independent :
    ((analyzeLocation 14.5995 120.9842 ("Manila") 0 true false).resilience
        ≠ scoreHazards ((analyzeLocation 14.5995 120.9842 ("Manila") 0 true false).hazards))
    ∧ ∀ (lat lon : ℚ) (placeName : String) (popDraw : Fin 4) (d1 d2 : Bool),
        ((analyzeLocation lat lon placeName popDraw d1 d2).resilience
            ≠ scoreHazards ((analyzeLocation lat lon placeName popDraw d1 d2).hazards)
          ↔ d1 ≠ d2) := by
  constructor
  · simp only [analyzeLocation, calculateResilience]
    rw [scoreHazards_coastal 14.5995 120.9842]
    omega
  · intro lat lon placeName popDraw d1 d2
    simp only [analyzeLocation, calculateResilience]
    cases d1 <;> cases d2 <;> (simp [scoreHazards_coastal lat lon]; try omega)

end GeoVision
